import Mathlib

/-!
Verification of the target launch orchestrator of `bevy_brp`
(`src/mcp/src/app_tools/support/launch_common.rs`), shallowly embedded in
Lean 4.  Machine integers (`u16`, `usize`) are modelled as `Nat` with
explicit saturating operations; fallible Rust functions returning
`Result<T>` become `Except Error T`; the OS side effects of spawning
processes are modelled by explicit state passing (a trace of spawned
process ids).
-/

namespace BevyBrp

/-- Saturating addition on `u16`, as `Nat`: `a.saturating_add b`. -/
def satAdd16 (a b : Nat) : Nat := min (a + b) 65535

/-- Saturating subtraction on `u16`: `a.saturating_sub b`.  `Nat`
subtraction is already truncated at zero. -/
def satSub16 (a b : Nat) : Nat := a - b

/-- Maximum valid port ceiling.  Modelled from the spec: the constant
`MAX_VALID_PORT` lives in `brp_tools::constants`, which is not among the
sources; the in-source comment at `launch_common.rs:695` and the spec's
"fixed maximum valid port value (distinct from the OS maximum)" give the
value 65534. -/
def MAX_VALID_PORT : Nat := 65534

/-- A JSON value, the model of `serde_json::Value` as used by
`parse_build_output` (objects are association lists). -/
inductive Json where
  | null : Json
  | bool (b : Bool) : Json
  | num (n : Int) : Json
  | str (s : String) : Json
  | arr (xs : List Json) : Json
  | obj (fields : List (String × Json)) : Json

/-- Model of `serde_json::Value::get` on objects: first binding of the key. -/
def Json.get (j : Json) (key : String) : Option Json :=
  match j with
  | .obj fields => (fields.find? (fun kv => kv.fst == key)).map (fun kv => kv.snd)
  | _ => none

/-- Model of `serde_json::Value::as_str`. -/
def Json.asStr : Json → Option String
  | .str s => some s
  | _ => none

/-- Model of `serde_json::Value::as_bool`. -/
def Json.asBool : Json → Option Bool
  | .bool b => some b
  | _ => none

/-- Target kind, from `cargo_detector::TargetType` (`App` vs `Example`). -/
inductive TargetType where
  | App : TargetType
  | Example : TargetType
deriving DecidableEq, Repr

/-- Modelled from the spec: the `Display` rendering of `TargetType`
(`cargo_detector.rs` is not among the sources); the spec only requires the
two kinds to be distinguishable strings. -/
def TargetType.display : TargetType → String
  | .App => "app"
  | .Example => "example"

/-- A discovered build target, from `cargo_detector::BevyTarget` (the
defining module is not among the sources; fields follow the spec's data
model: name, kind, manifest path, workspace root, package name, relative
path, derived binary path).  `manifest_parent` is the result of
`manifest_path.parent()`; `workspace_file_name` is
`workspace_root.file_name()` as a string; `binary_path` is the derived
`get_binary_path(profile)`. -/
structure BevyTarget where
  name : String
  kind : TargetType
  manifest_parent : Option String
  workspace_file_name : Option String
  package_name : String
  relative_path : String
  binary_path : String → String

/-- The resolved launch intent, from `LaunchConfig<T>` together with its
`LaunchConfigTrait` implementation: the compile-time marker `T` becomes the
`target_type` field (the spec's closed tagged variant). -/
structure LaunchConfig where
  target_type : TargetType
  target_name : String
  profile : String
  path : Option String
  port : Nat
  instance_count : Nat
  features : Option (List String)

/-- Structured resolution errors.  Modelled from the spec: the error types
live in `app_tools::support::errors`, which is not among the sources; each
carries exactly the payload passed to its `new` constructor in
`find_and_validate_target`. -/
inductive StructuredError where
  | NoTargetsFoundError (target_name : String) (target_type : String) : StructuredError
  | TargetNotFoundAtSpecifiedPath (target_name : String) (target_type : String)
      (path : Option String) (available_paths : List String) : StructuredError
  | PathDisambiguationError (available_paths : List String)
      (target_name : String) (target_type : String) : StructuredError
deriving DecidableEq, Repr

/-- Modelled from the spec: the crate error enum (`error.rs` is not among
the sources).  The kinds are exactly those constructed in
`launch_common.rs`: `Structured`, `ProcessManagement`, `FileOrPathNotFound`,
and the generic tool failures built by `Error::tool_call_failed` /
`Error::tool_call_failed_with_details`. -/
inductive Error where
  | Structured (result : StructuredError) : Error
  | ProcessManagement (msg : String) : Error
  | FileOrPathNotFound (msg : String) : Error
  | ToolCallFailed (msg : String) : Error
  | ToolCallFailedWithDetails (msg : String) (details : Json) : Error

/-- Model of `Error::tool_call_failed`. -/
def Error.tool_call_failed (msg : String) : Error := .ToolCallFailed msg

/-- Model of `Error::tool_call_failed_with_details`. -/
def Error.tool_call_failed_with_details (msg : String) (details : Json) : Error :=
  .ToolCallFailedWithDetails msg details

/-- Whether an error is the structured kind (`matches!(e, Error::Structured {..})`). -/
def Error.isStructured : Error → Bool
  | .Structured _ => true
  | _ => false

/-- Modelled from the spec: the `Display` rendering of an error
(`error.rs` is not among the sources).  Only non-structured errors are
displayed by the code under verification, and no claim depends on the
exact text, so each kind displays its message payload. -/
def Error.display : Error → String
  | .Structured _ => "structured error"
  | .ProcessManagement msg => msg
  | .FileOrPathNotFound msg => msg
  | .ToolCallFailed msg => msg
  | .ToolCallFailedWithDetails msg _ => msg

/-- Tri-state build outcome, from `BuildState`. -/
inductive BuildState where
  | NotFound : BuildState
  | Fresh : BuildState
  | Rebuilt : BuildState
deriving DecidableEq, Repr

/-- One launched instance, from `LaunchedInstance`. -/
structure LaunchedInstance where
  pid : Nat
  log_file : String
  port : Nat
deriving DecidableEq, Repr

/-- The aggregate launch result, from `LaunchResult`. -/
structure LaunchResult where
  target_name : Option String
  instances : List LaunchedInstance
  working_directory : Option String
  profile : Option String
  binary_path : Option String
  launch_duration_ms : Option Nat
  launch_timestamp : Option String
  workspace : Option String
  package_name : Option String
  duplicate_paths : Option (List String)
  message_template : Option String
deriving DecidableEq, Repr

/-- The condition chain of the loop body of `parse_build_output`: the line
parses as JSON (`line : Option Json` is the result of
`serde_json::from_str`), has a `target` object with a `name`, and
`name.as_str() == Some(target_name)`. -/
def lineNamesTarget (line : Option Json) (target_name : String) : Bool :=
  match line with
  | some json =>
    match json.get "target" with
    | some target =>
      match target.get "name" with
      | some name => name.asStr == some target_name
      | none => false
    | none => false
  | none => false

/-- The freshness flag read from a line:
`json.get("fresh").and_then(Value::as_bool)`. -/
def lineFreshFlag (line : Option Json) : Option Bool :=
  match line with
  | some json => (json.get "fresh").bind Json.asBool
  | none => none

/-- Model of `parse_build_output`: scan the line-delimited build output
(each element is one line's `serde_json::from_str` result) for the first
event naming the target and classify by its freshness flag
(`map_or(Rebuilt, |is_fresh| if is_fresh { Fresh } else { Rebuilt })`). -/
def parse_build_output (lines : List (Option Json)) (target_name : String) : BuildState :=
  match lines with
  | [] => .NotFound
  | line :: rest =>
    if lineNamesTarget line target_name then
      match lineFreshFlag line with
      | some true => .Fresh
      | some false => .Rebuilt
      | none => .Rebuilt
    else
      parse_build_output rest target_name

/-- Modelled from the spec: `scanning::find_all_targets_by_name`
(`scanning.rs` is not among the sources).  The spec's Target Catalog
Scanner returns all discovered targets matching the given name and kind;
the search roots are abstracted into the catalog of discovered targets. -/
def find_all_targets_by_name (name : String) (kind : TargetType)
    (catalog : List BevyTarget) : List BevyTarget :=
  catalog.filter (fun t => t.name == name && t.kind == kind)

/-- Modelled from the spec: `scanning::find_required_target_with_path`
(`scanning.rs` is not among the sources).  Per the spec's Target Resolver:
"if `path_hint` given, require an exact match against a candidate's
relative path; otherwise require the candidate set to contain exactly one
entry"; failure carries a generic message (its text is only ever used in
the unreachable fallback of `find_and_validate_target`). -/
def find_required_target_with_path (path_hint : Option String)
    (all_targets : List BevyTarget) : Except String BevyTarget :=
  match path_hint with
  | some hint =>
    match all_targets.find? (fun t => t.relative_path == hint) with
    | some t => .ok t
    | none => .error "target not found at specified path"
  | none =>
    match all_targets with
    | [t] => .ok t
    | _ => .error "target resolution was not unique"

/-- Model of `create_error_details`: the JSON diagnostic payload attached
to generic tool failures. -/
def create_error_details (config : LaunchConfig)
    (duplicate_paths : Option (List String)) : Json :=
  .obj
    [ ("target_name", .str config.target_name)
    , ("target_type", .str config.target_type.display)
    , ("profile", .str config.profile)
    , ("path", match config.path with | some p => .str p | none => .null)
    , ("port", .num (Int.ofNat config.port))
    , ("duplicate_paths",
        match duplicate_paths with
        | some paths => .arr (paths.map Json.str)
        | none => .null) ]

/-- Model of `find_and_validate_target`: scan all targets with the
requested name and kind, record duplicate relative paths when more than
one matches, then attempt hint-aware resolution; on failure return the
structured error determined by the candidate set (the match on
`all_targets` mirrors the match on `all_targets.len()`). -/
def find_and_validate_target (config : LaunchConfig)
    (catalog : List BevyTarget) : Except Error BevyTarget :=
  let all_targets := find_all_targets_by_name config.target_name config.target_type catalog
  let duplicate_paths : Option (List String) :=
    if all_targets.length > 1 then
      some (all_targets.map (fun t => t.relative_path))
    else
      none
  match find_required_target_with_path config.path all_targets with
  | .ok target => .ok target
  | .error err =>
    match duplicate_paths with
    | some available_paths =>
      .error (.Structured (.PathDisambiguationError available_paths
        config.target_name config.target_type.display))
    | none =>
      match all_targets with
      | [] =>
        .error (.Structured (.NoTargetsFoundError config.target_name
          config.target_type.display))
      | [t] =>
        .error (.Structured (.TargetNotFoundAtSpecifiedPath config.target_name
          config.target_type.display config.path [t.relative_path]))
      | _ =>
        .error (Error.tool_call_failed_with_details err
          (create_error_details config none))

/-- The message of the instance-count overflow error of
`validate_port_range`: `"Instance count {} is too large (maximum is {})"`
with the count and `u16::MAX`. -/
def instance_count_error_message (instance_count : Nat) : String :=
  "Instance count " ++ toString instance_count ++
    " is too large (maximum is " ++ toString 65535 ++ ")"

/-- The message of the range-exceeded error of `validate_port_range`:
`"Port range {} to {} exceeds maximum valid port {}"` with the base port,
the computed (saturating) highest port, and the ceiling. -/
def port_range_error_message (base_port highest_port : Nat) : String :=
  "Port range " ++ toString base_port ++ " to " ++ toString highest_port ++
    " exceeds maximum valid port " ++ toString MAX_VALID_PORT

/-- Model of `validate_port_range`: `u16::try_from(instance_count)` fails
for counts above `u16::MAX` (checked first); then the saturating highest
port is compared against the ceiling. -/
def validate_port_range (base_port : Nat) (instance_count : Nat) : Except Error Unit :=
  if instance_count > 65535 then
    .error (Error.tool_call_failed (instance_count_error_message instance_count))
  else if satAdd16 base_port (satSub16 instance_count 1) > MAX_VALID_PORT then
    .error (Error.tool_call_failed (port_range_error_message base_port
      (satAdd16 base_port (satSub16 instance_count 1))))
  else
    .ok ()

/-- Model of `validate_manifest_directory`: `manifest_path.parent()` or a
`FileOrPathNotFound` error. -/
def validate_manifest_directory (manifest_parent : Option String) : Except Error String :=
  match manifest_parent with
  | some dir => .ok dir
  | none => .error (.FileOrPathNotFound "Invalid manifest path")

/-- The environment of a launch call: the catalog the scanner would
discover, the outcome of the external cargo build invocation (an error, or
the stdout lines each given as its `serde_json::from_str` result), the
outcomes of per-instance launch preparation (`prepare_launch_environment`:
port of the instance to log file path) and detached spawn
(`process::launch_detached_process`: port of the instance to pid), and the
ambient clock and working directory read by `build_launch_result`. -/
structure LaunchEnv where
  catalog : List BevyTarget
  build_result : Except Error (List (Option Json))
  prepare : Nat → Except Error String
  spawn : Nat → Except Error Nat
  current_dir : Option String
  duration_ms : Nat
  timestamp : String

/-- Model of `run_cargo_build`: execute the external build (its outcome is
`env.build_result`), then classify the output lines;
`log_build_result` only logs. -/
def run_cargo_build (env : LaunchEnv) (target_name : String) : Except Error BuildState :=
  match env.build_result with
  | .error e => .error e
  | .ok output_lines => .ok (parse_build_output output_lines target_name)

/-- Model of `LaunchConfigTrait::ensure_built`: validate the manifest
directory, then run the cargo build. -/
def ensure_built (env : LaunchEnv) (config : LaunchConfig)
    (target : BevyTarget) : Except Error BuildState :=
  match validate_manifest_directory target.manifest_parent with
  | .error e => .error e
  | .ok _manifest_dir => run_cargo_build env config.target_name

/-- The port computed for instance `i` in the launch loop:
`u16::try_from(i).unwrap_or(u16::MAX)` then
`base_port.saturating_add(i_u16)`. -/
def instancePort (base_port i : Nat) : Nat :=
  satAdd16 base_port (min i 65535)

/-- The loop body of `launch_instances`, iterating over the remaining
instance indices (`for i in 0..instance_count`).  The accumulators are the
`all_pids`, `all_log_files` and `all_ports` vectors; `os_trace` is the
explicit state modelling the OS side effect of
`process::launch_detached_process` (pids of processes spawned so far, in
order; the code never terminates a spawned process, so the trace only
grows). -/
def launch_instances_go (env : LaunchEnv) (base_port : Nat) :
    List Nat → List Nat → List String → List Nat → List Nat →
    Except Error (List Nat × List String × List Nat) × List Nat
  | [], all_pids, all_log_files, all_ports, os_trace =>
    (.ok (all_pids, all_log_files, all_ports), os_trace)
  | i :: rest, all_pids, all_log_files, all_ports, os_trace =>
    match env.prepare (instancePort base_port i) with
    | .error e => (.error e, os_trace)
    | .ok log_file_path =>
      match env.spawn (instancePort base_port i) with
      | .error e => (.error e, os_trace)
      | .ok pid =>
        launch_instances_go env base_port rest (all_pids ++ [pid])
          (all_log_files ++ [log_file_path])
          (all_ports ++ [instancePort base_port i]) (os_trace ++ [pid])

/-- Model of `launch_instances`: launch `instance_count` instances at
consecutive (saturating) ports starting from `base_port`, threading the OS
spawn trace. -/
def launch_instances (env : LaunchEnv) (instance_count base_port : Nat) :
    Except Error (List Nat × List String × List Nat) × List Nat :=
  launch_instances_go env base_port (List.range instance_count) [] [] [] []

/-- The port-range string of `build_launch_result`: `all_ports[0]` when
there is exactly one port, otherwise
`"{all_ports[0]}-{all_ports[all_ports.len() - 1]}"`; `none` models the
panic of the out-of-bounds index on an empty vector. -/
def port_range_string (all_ports : List Nat) : Option String :=
  if all_ports.length == 1 then
    (all_ports.head?).map (fun p => toString p)
  else
    match all_ports.head?, all_ports.getLast? with
    | some first, some last => some (toString first ++ "-" ++ toString last)
    | _, _ => none

/-- The summary message of `build_launch_result`:
`"Successfully launched {} instance(s) of {} on ports {}"`. -/
def launch_message (instance_count : Nat) (target_name : String)
    (port_range : String) : String :=
  "Successfully launched " ++ toString instance_count ++ " instance(s) of " ++
    target_name ++ " on ports " ++ port_range

/-- Model of `build_launch_result`: zip the collected vectors into
`LaunchedInstance` entries and assemble the `LaunchResult`; `none` models
the panic of indexing `all_ports[0]` on an empty vector. -/
def build_launch_result (env : LaunchEnv) (all_pids : List Nat)
    (all_log_files : List String) (all_ports : List Nat)
    (config : LaunchConfig) (target : BevyTarget) : Option LaunchResult :=
  let instances : List LaunchedInstance :=
    ((all_pids.zip all_log_files).zip all_ports).map
      (fun x => { pid := x.fst.fst, log_file := x.fst.snd, port := x.snd })
  match port_range_string all_ports with
  | none => none
  | some port_range =>
    let instance_count := all_ports.length
    let target_name_str := config.target_name
    some
      { target_name := some config.target_name
      , instances := instances
      , working_directory := env.current_dir
      , profile := some config.profile
      , binary_path :=
          if config.target_type == .App then
            some (target.binary_path config.profile)
          else
            none
      , launch_duration_ms := some env.duration_ms
      , launch_timestamp := some env.timestamp
      , workspace := target.workspace_file_name
      , package_name :=
          if config.target_type == .Example then
            some target.package_name
          else
            none
      , duplicate_paths := none
      , message_template :=
          some (launch_message instance_count target_name_str port_range) }

/-- Model of `handle_target_discovery_error`: structured errors are
preserved as-is; anything else is converted to a generic tool failure with
the display message and a diagnostic payload attached (the `error_chain`
debug rendering of the report is abstracted by the display message). -/
def handle_target_discovery_error (error : Error) : Error :=
  match error with
  | .Structured result => .Structured result
  | e =>
    let error_message := e.display
    Error.tool_call_failed_with_details error_message
      (.obj [("error", .str error_message), ("error_chain", .str error_message)])

/-- Outcome of a launch call: a result, an error, or a panic (the only
panic site is the empty-vector index in `build_launch_result`). -/
inductive LaunchOutcome where
  | Ok (result : LaunchResult) : LaunchOutcome
  | Err (error : Error) : LaunchOutcome
  | Panicked : LaunchOutcome

/-- Model of `launch_target`: resolve the target (discovery errors routed
through `handle_target_discovery_error`), ensure it is built (the
`BuildState` is only logged, `NotFound` included), validate the port
range, launch all instances, and aggregate the result.  The second
component is the OS spawn trace. -/
def launch_target (env : LaunchEnv) (config : LaunchConfig) :
    LaunchOutcome × List Nat :=
  match find_and_validate_target config env.catalog with
  | .error e => (.Err (handle_target_discovery_error e), [])
  | .ok target =>
    match ensure_built env config target with
    | .error e => (.Err e, [])
    | .ok _build_state =>
      match validate_port_range config.port config.instance_count with
      | .error e => (.Err e, [])
      | .ok _ =>
        match launch_instances env config.instance_count config.port with
        | (.error e, os_trace) => (.Err e, os_trace)
        | (.ok (all_pids, all_log_files, all_ports), os_trace) =>
          match build_launch_result env all_pids all_log_files all_ports config target with
          | some result => (.Ok result, os_trace)
          | none => (.Panicked, os_trace)

/-! Concrete scenario data used by counterexamples and witnesses. -/

/-- A sample application target at relative path `a/game`. -/
def gameTargetA : BevyTarget :=
  { name := "game"
  , kind := .App
  , manifest_parent := some "/ws/a"
  , workspace_file_name := some "ws"
  , package_name := "pkg_a"
  , relative_path := "a/game"
  , binary_path := fun profile => "/ws/target/" ++ profile ++ "/game" }

/-- A second target with the same name and kind at relative path `b/game`. -/
def gameTargetB : BevyTarget :=
  { gameTargetA with package_name := "pkg_b", relative_path := "b/game" }

/-- A sample environment: one uniquely-named discovered target, a
successful build with empty event output, and deterministic successful
preparation and spawn (pid is 1000 plus the port). -/
def soloEnv : LaunchEnv :=
  { catalog := [gameTargetA]
  , build_result := .ok []
  , prepare := fun port => .ok ("log" ++ toString port)
  , spawn := fun port => .ok (1000 + port)
  , current_dir := some "/cwd"
  , duration_ms := 5
  , timestamp := "2026-01-01T00:00:00Z" }

/-- The sample environment with two same-named targets discovered. -/
def dupEnv : LaunchEnv := { soloEnv with catalog := [gameTargetA, gameTargetB] }

/-- A sample launch configuration for one instance of `game` at port 15702. -/
def baseConfig : LaunchConfig :=
  { target_type := .App
  , target_name := "game"
  , profile := "debug"
  , path := none
  , port := 15702
  , instance_count := 1
  , features := none }

/-- The result of launching `baseConfig` with path hint `a/game` against
`dupEnv` (resolution succeeds after disambiguating among two candidates). -/
def dupHintResult : LaunchResult :=
  { target_name := some "game"
  , instances := [{ pid := 16702, log_file := "log15702", port := 15702 }]
  , working_directory := some "/cwd"
  , profile := some "debug"
  , binary_path := some "/ws/target/debug/game"
  , launch_duration_ms := some 5
  , launch_timestamp := some "2026-01-01T00:00:00Z"
  , workspace := some "ws"
  , package_name := none
  , duplicate_paths := none
  , message_template := some "Successfully launched 1 instance(s) of game on ports 15702" }

/-- The sample configuration asking for three instances. -/
def soloThreeConfig : LaunchConfig := { baseConfig with instance_count := 3 }

/-- The result of launching three instances of `game` against `soloEnv`. -/
def soloThreeResult : LaunchResult :=
  { target_name := some "game"
  , instances :=
      [ { pid := 16702, log_file := "log15702", port := 15702 }
      , { pid := 16703, log_file := "log15703", port := 15703 }
      , { pid := 16704, log_file := "log15704", port := 15704 } ]
  , working_directory := some "/cwd"
  , profile := some "debug"
  , binary_path := some "/ws/target/debug/game"
  , launch_duration_ms := some 5
  , launch_timestamp := some "2026-01-01T00:00:00Z"
  , workspace := some "ws"
  , package_name := none
  , duplicate_paths := none
  , message_template := some "Successfully launched 3 instance(s) of game on ports 15702-15704" }

/-- The sample environment where spawning at port 15703 fails (the second
instance of a multi-instance launch from base port 15702). -/
def failSpawnEnv : LaunchEnv :=
  { soloEnv with
    spawn := fun port =>
      if port == 15703 then .error (.ProcessManagement "spawn failed")
      else .ok (1000 + port) }

/-- Whether a launch outcome is a success. -/
def LaunchOutcome.isSuccess : LaunchOutcome → Bool
  | .Ok _ => true
  | _ => false

/-- Whether a launch outcome is an error. -/
def LaunchOutcome.isErr : LaunchOutcome → Bool
  | .Err _ => true
  | _ => false

/-! Helper lemmas about the launch loop, the port allocator and the
aggregator. -/

/-- When preparation and spawn succeed on every remaining instance, the
launch loop appends one pid, log file and port per instance and records
each spawned pid in the OS trace. -/
theorem launch_instances_go_all_ok (env : LaunchEnv) (base_port : Nat)
    (L : Nat → String) (P : Nat → Nat) :
    ∀ (idxs pids : List Nat) (logs : List String) (ports os : List Nat),
      (∀ i ∈ idxs, env.prepare (instancePort base_port i) = .ok (L i) ∧
        env.spawn (instancePort base_port i) = .ok (P i)) →
      launch_instances_go env base_port idxs pids logs ports os =
        (.ok (pids ++ idxs.map P, logs ++ idxs.map L,
          ports ++ idxs.map (instancePort base_port)), os ++ idxs.map P) := by
  intro idxs
  induction idxs with
  | nil =>
    intro pids logs ports os _
    simp [launch_instances_go]
  | cons i rest ih =>
    intro pids logs ports os h
    have hi := h i (by simp)
    have hrest : ∀ j ∈ rest,
        env.prepare (instancePort base_port j) = .ok (L j) ∧
        env.spawn (instancePort base_port j) = .ok (P j) :=
      fun j hj => h j (by simp [hj])
    simp only [launch_instances_go, hi.1, hi.2]
    rw [ih _ _ _ _ hrest]
    simp

/-- When preparation and spawn succeed on a prefix of instances and then
instance `i` fails (in preparation or in spawn), the loop stops with that
error; the OS trace keeps exactly the pids spawned before the failure. -/
theorem launch_instances_go_fail (env : LaunchEnv) (base_port : Nat)
    (L : Nat → String) (P : Nat → Nat) (e : Error) :
    ∀ pre : List Nat,
      (∀ j ∈ pre, env.prepare (instancePort base_port j) = .ok (L j) ∧
        env.spawn (instancePort base_port j) = .ok (P j)) →
      ∀ (i : Nat) (rest pids : List Nat) (logs : List String) (ports os : List Nat),
        (env.prepare (instancePort base_port i) = .error e ∨
          ∃ lf, env.prepare (instancePort base_port i) = .ok lf ∧
            env.spawn (instancePort base_port i) = .error e) →
        launch_instances_go env base_port (pre ++ i :: rest) pids logs ports os =
          (.error e, os ++ pre.map P) := by
  intro pre
  induction pre with
  | nil =>
    intro _ i rest pids logs ports os hfail
    rcases hfail with hp | ⟨lf, hp, hs⟩
    · simp [launch_instances_go, hp]
    · simp [launch_instances_go, hp, hs]
  | cons j pre ih =>
    intro h i rest pids logs ports os hfail
    have hj := h j (by simp)
    have hpre : ∀ k ∈ pre,
        env.prepare (instancePort base_port k) = .ok (L k) ∧
        env.spawn (instancePort base_port k) = .ok (P k) :=
      fun k hk => h k (by simp [hk])
    simp only [List.cons_append, launch_instances_go, hj.1, hj.2]
    have hrec := ih hpre i rest (pids ++ [P j]) (logs ++ [L j])
      (ports ++ [instancePort base_port j]) (os ++ [P j]) hfail
    simpa [List.append_assoc] using hrec

/-- Inversion of a successful run of the launch loop: the ports are
determined by the index list, the log list grows by one entry per index,
and the pids appended to the accumulator are exactly the pids appended to
the OS trace. -/
theorem launch_instances_go_ok_inv (env : LaunchEnv) (base_port : Nat) :
    ∀ (idxs pids : List Nat) (logs : List String) (ports os p' : List Nat)
      (l' : List String) (q' os' : List Nat),
      launch_instances_go env base_port idxs pids logs ports os =
        (.ok (p', l', q'), os') →
      q' = ports ++ idxs.map (instancePort base_port) ∧
      l'.length = logs.length + idxs.length ∧
      ∃ d, p' = pids ++ d ∧ os' = os ++ d ∧ d.length = idxs.length := by
  intro idxs
  induction idxs with
  | nil =>
    intro pids logs ports os p' l' q' os' h
    simp only [launch_instances_go, Prod.mk.injEq, Except.ok.injEq] at h
    obtain ⟨⟨h3, h4, h5⟩, h2⟩ := h
    subst h3; subst h4; subst h5; subst h2
    exact ⟨by simp, by simp, [], by simp, by simp, rfl⟩
  | cons i rest ih =>
    intro pids logs ports os p' l' q' os' h
    simp only [launch_instances_go] at h
    cases hp : env.prepare (instancePort base_port i) with
    | error e =>
      rw [hp] at h
      simp only [Prod.mk.injEq] at h
      exact absurd h.1 (by intro hh; cases hh)
    | ok lf =>
      rw [hp] at h
      cases hs : env.spawn (instancePort base_port i) with
      | error e =>
        rw [hs] at h
        simp only [Prod.mk.injEq] at h
        exact absurd h.1 (by intro hh; cases hh)
      | ok pid =>
        rw [hs] at h
        obtain ⟨hq, hl, d, hpids, hos, hlen⟩ := ih _ _ _ _ _ _ _ _ h
        refine ⟨by simp [hq], by simp [hl]; omega, pid :: d, ?_, ?_, by simp [hlen]⟩
        · simpa using hpids
        · simpa using hos

/-- The launch loop reads only the preparation and spawn effects of its
environment. -/
theorem launch_instances_go_prepare_spawn (env env' : LaunchEnv)
    (hp : env.prepare = env'.prepare) (hs : env.spawn = env'.spawn)
    (base_port : Nat) :
    ∀ (idxs pids : List Nat) (logs : List String) (ports os : List Nat),
      launch_instances_go env base_port idxs pids logs ports os =
        launch_instances_go env' base_port idxs pids logs ports os := by
  intro idxs
  induction idxs with
  | nil => intro pids logs ports os; rfl
  | cons i rest ih =>
    intro pids logs ports os
    simp only [launch_instances_go, hp, hs]
    cases env'.prepare (instancePort base_port i) with
    | error e => rfl
    | ok lf =>
      cases env'.spawn (instancePort base_port i) with
      | error e => rfl
      | ok pid => exact ih _ _ _ _

/-- The aggregator reads only the ambient working directory, clock and
timestamp of its environment. -/
theorem build_launch_result_ambient (env env' : LaunchEnv)
    (h1 : env.current_dir = env'.current_dir)
    (h2 : env.duration_ms = env'.duration_ms)
    (h3 : env.timestamp = env'.timestamp)
    (all_pids : List Nat) (all_log_files : List String) (all_ports : List Nat)
    (config : LaunchConfig) (target : BevyTarget) :
    build_launch_result env all_pids all_log_files all_ports config target =
      build_launch_result env' all_pids all_log_files all_ports config target := by
  simp only [build_launch_result, h1, h2, h3]

/-- Characterization of a passing port-range validation. -/
theorem validate_port_range_ok_iff (base_port instance_count : Nat) :
    validate_port_range base_port instance_count = .ok () ↔
      instance_count ≤ 65535 ∧
      satAdd16 base_port (satSub16 instance_count 1) ≤ MAX_VALID_PORT := by
  unfold validate_port_range
  by_cases h1 : instance_count > 65535
  · simp only [h1, if_true]
    constructor
    · intro h; cases h
    · intro h; omega
  · simp only [h1, if_false]
    by_cases h2 : satAdd16 base_port (satSub16 instance_count 1) > MAX_VALID_PORT
    · simp only [h2, if_true]
      constructor
      · intro h; cases h
      · intro h; omega
    · simp only [h2, if_false]
      constructor
      · intro _; exact ⟨by omega, by omega⟩
      · intro _; trivial

/-- Under a passing validation with at least one instance, the saturating
per-instance port computation is exact addition. -/
theorem instancePort_eq_add (base_port instance_count i : Nat)
    (hcount : instance_count ≤ 65535)
    (hrange : satAdd16 base_port (satSub16 instance_count 1) ≤ MAX_VALID_PORT)
    (hi : i < instance_count) :
    instancePort base_port i = base_port + i := by
  unfold satAdd16 satSub16 MAX_VALID_PORT at hrange
  unfold instancePort satAdd16
  omega

/-- Inversion of a successful aggregation: the result has no duplicate
paths, its instances are the zip of the collected vectors, and its message
is the summary over the collected ports. -/
theorem build_launch_result_some_inv (env : LaunchEnv) (all_pids : List Nat)
    (all_log_files : List String) (all_ports : List Nat)
    (config : LaunchConfig) (target : BevyTarget) (r : LaunchResult)
    (h : build_launch_result env all_pids all_log_files all_ports config target = some r) :
    r.duplicate_paths = none ∧
    r.instances = ((all_pids.zip all_log_files).zip all_ports).map
      (fun x => { pid := x.fst.fst, log_file := x.fst.snd, port := x.snd }) ∧
    ∃ port_range, port_range_string all_ports = some port_range ∧
      r.message_template =
        some (launch_message all_ports.length config.target_name port_range) := by
  simp only [build_launch_result] at h
  cases hpr : port_range_string all_ports with
  | none =>
    rw [hpr] at h
    cases h
  | some port_range =>
    rw [hpr] at h
    obtain h := Option.some.inj h
    subst h
    exact ⟨rfl, rfl, port_range, rfl, rfl⟩

/-- Inversion of a successful launch call: every stage succeeded, and the
result is the aggregation of the collected vectors. -/
theorem launch_target_Ok_inv (env : LaunchEnv) (config : LaunchConfig)
    (r : LaunchResult) (os : List Nat)
    (h : launch_target env config = (.Ok r, os)) :
    ∃ target all_pids all_log_files all_ports,
      find_and_validate_target config env.catalog = .ok target ∧
      validate_port_range config.port config.instance_count = .ok () ∧
      launch_instances env config.instance_count config.port =
        (.ok (all_pids, all_log_files, all_ports), os) ∧
      build_launch_result env all_pids all_log_files all_ports config target = some r := by
  unfold launch_target at h
  cases h1 : find_and_validate_target config env.catalog with
  | error e =>
    rw [h1] at h
    simp only [Prod.mk.injEq] at h
    exact absurd h.1 (by intro hh; cases hh)
  | ok target =>
    rw [h1] at h
    dsimp only at h
    cases h2 : ensure_built env config target with
    | error e =>
      rw [h2] at h
      dsimp only at h
      simp only [Prod.mk.injEq] at h
      exact absurd h.1 (by intro hh; cases hh)
    | ok build_state =>
      rw [h2] at h
      dsimp only at h
      cases h3 : validate_port_range config.port config.instance_count with
      | error e =>
        rw [h3] at h
        dsimp only at h
        simp only [Prod.mk.injEq] at h
        exact absurd h.1 (by intro hh; cases hh)
      | ok u =>
        rw [h3] at h
        dsimp only at h
        cases u
        cases h4 : launch_instances env config.instance_count config.port with
        | mk res trace =>
          rw [h4] at h
          cases res with
          | error e =>
            dsimp only at h
            simp only [Prod.mk.injEq] at h
            exact absurd h.1 (by intro hh; cases hh)
          | ok triple =>
            obtain ⟨all_pids, all_log_files, all_ports⟩ := triple
            dsimp only at h
            cases h5 : build_launch_result env all_pids all_log_files all_ports config target with
            | none =>
              rw [h5] at h
              dsimp only at h
              simp only [Prod.mk.injEq] at h
              exact absurd h.1 (by intro hh; cases hh)
            | some r' =>
              rw [h5] at h
              dsimp only at h
              simp only [Prod.mk.injEq] at h
              obtain ⟨hr, htr⟩ := h
              obtain hr := LaunchOutcome.Ok.inj hr
              subst hr; subst htr
              exact ⟨target, all_pids, all_log_files, all_ports, rfl, rfl, rfl, h5⟩

/-- Resolution with an empty candidate set yields `NoTargetsFoundError`. -/
theorem find_and_validate_target_empty (config : LaunchConfig)
    (catalog : List BevyTarget)
    (h : find_all_targets_by_name config.target_name config.target_type catalog = []) :
    find_and_validate_target config catalog =
      .error (.Structured (.NoTargetsFoundError config.target_name
        config.target_type.display)) := by
  simp only [find_and_validate_target, h]
  cases hp : config.path with
  | none => simp [find_required_target_with_path]
  | some hint => simp [find_required_target_with_path]

/-- Resolution with exactly one candidate and a failing hint-aware match
yields `TargetNotFoundAtSpecifiedPath` listing that candidate's path. -/
theorem find_and_validate_target_single (config : LaunchConfig)
    (catalog : List BevyTarget) (t : BevyTarget) (e : String)
    (hall : find_all_targets_by_name config.target_name config.target_type catalog = [t])
    (herr : find_required_target_with_path config.path [t] = .error e) :
    find_and_validate_target config catalog =
      .error (.Structured (.TargetNotFoundAtSpecifiedPath config.target_name
        config.target_type.display config.path [t.relative_path])) := by
  simp only [find_and_validate_target, hall, herr]
  simp

/-- Resolution with two or more candidates and a failing hint-aware match
yields `PathDisambiguationError` listing all candidate paths. -/
theorem find_and_validate_target_dup (config : LaunchConfig)
    (catalog : List BevyTarget) (e : String)
    (hlen : 2 ≤ (find_all_targets_by_name config.target_name config.target_type catalog).length)
    (herr : find_required_target_with_path config.path
      (find_all_targets_by_name config.target_name config.target_type catalog) = .error e) :
    find_and_validate_target config catalog =
      .error (.Structured (.PathDisambiguationError
        ((find_all_targets_by_name config.target_name config.target_type catalog).map
          (fun t => t.relative_path))
        config.target_name config.target_type.display)) := by
  have hgt : (find_all_targets_by_name config.target_name config.target_type catalog).length > 1 := by
    omega
  simp only [find_and_validate_target, herr, hgt]
  simp

/-- Head of a nonempty arithmetic range. -/
theorem head?_range'_pos (s n : Nat) (h : 0 < n) :
    (List.range' s n).head? = some s := by
  obtain ⟨m, rfl⟩ : ∃ m, n = m + 1 := ⟨n - 1, by omega⟩
  rw [List.range'_succ]
  rfl

/-- Last element of a nonempty arithmetic range. -/
theorem getLast?_range'_pos (s n : Nat) (h : 0 < n) :
    (List.range' s n).getLast? = some (s + (n - 1)) := by
  obtain ⟨m, rfl⟩ : ∃ m, n = m + 1 := ⟨n - 1, by omega⟩
  rw [List.range'_concat]
  simp [List.getLast?_concat]

/-- The port-range string of a nonempty contiguous ascending port list:
the single base port for one instance, `"base-highest"` otherwise. -/
theorem port_range_string_range' (base n : Nat) (h : 0 < n) :
    port_range_string (List.range' base n) =
      some (if n = 1 then toString base
        else toString base ++ "-" ++ toString (base + (n - 1))) := by
  by_cases h1 : n = 1
  · subst h1
    simp [port_range_string, List.range']
  · have hlen : (List.range' base n).length = n := by simp
    have hbeq : ((List.range' base n).length == 1) = false := by
      rw [hlen]
      simp [Nat.beq_eq_true_eq, h1]
    unfold port_range_string
    rw [hbeq, head?_range'_pos base n h, getLast?_range'_pos base n h]
    simp [h1]

/-! Claim theorems. -/

/-- C2: for every `instance_count ≤ 65535` (and at least one instance) and
every `base_port` with `base_port + instance_count - 1` within the maximum
valid port, port-range validation succeeds, each instance `i` is assigned
the saturating-computed port equal to `base_port + i`, and the allocated
port list is exactly `instance_count` contiguous ascending ports starting
at `base_port`. -/
theorem port_allocation_contiguous (env : LaunchEnv)
    (base_port instance_count : Nat) (L : Nat → String) (P : Nat → Nat)
    (hpos : 1 ≤ instance_count)
    (hcount : instance_count ≤ 65535)
    (hrange : base_port + instance_count - 1 ≤ MAX_VALID_PORT)
    (hprep : ∀ i, i < instance_count → env.prepare (base_port + i) = .ok (L i))
    (hspawn : ∀ i, i < instance_count → env.spawn (base_port + i) = .ok (P i)) :
    validate_port_range base_port instance_count = .ok () ∧
    (∀ i, i < instance_count → instancePort base_port i = base_port + i) ∧
    launch_instances env instance_count base_port =
      (.ok ((List.range instance_count).map P, (List.range instance_count).map L,
        List.range' base_port instance_count), (List.range instance_count).map P) := by
  have hsat : satAdd16 base_port (satSub16 instance_count 1) ≤ MAX_VALID_PORT := by
    unfold MAX_VALID_PORT at hrange
    unfold satAdd16 satSub16 MAX_VALID_PORT
    omega
  have hport : ∀ i, i < instance_count → instancePort base_port i = base_port + i :=
    fun i hi => instancePort_eq_add base_port instance_count i hcount hsat hi
  refine ⟨(validate_port_range_ok_iff base_port instance_count).mpr ⟨hcount, hsat⟩,
    hport, ?_⟩
  have hok : ∀ i ∈ List.range instance_count,
      env.prepare (instancePort base_port i) = .ok (L i) ∧
      env.spawn (instancePort base_port i) = .ok (P i) := by
    intro i hi
    rw [List.mem_range] at hi
    rw [hport i hi]
    exact ⟨hprep i hi, hspawn i hi⟩
  have hrun := launch_instances_go_all_ok env base_port L P
    (List.range instance_count) [] [] [] [] hok
  have hmap : (List.range instance_count).map (instancePort base_port) =
      List.range' base_port instance_count := by
    rw [List.range'_eq_map_range]
    exact List.map_congr_left (fun i hi => hport i (List.mem_range.mp hi))
  unfold launch_instances
  rw [hrun]
  simp [hmap]

/-- Witness for C2: three instances at base port 15702 allocate exactly
the ports 15702, 15703, 15704. -/
theorem port_allocation_contiguous_witness :
    (1 ≤ 3 ∧ 3 ≤ 65535 ∧ 15702 + 3 - 1 ≤ MAX_VALID_PORT) ∧
    (validate_port_range 15702 3 = .ok () ∧
      (∀ i, i < 3 → instancePort 15702 i = 15702 + i) ∧
      launch_instances soloEnv 3 15702 =
        (.ok ([16702, 16703, 16704], ["log15702", "log15703", "log15704"],
          [15702, 15703, 15704]), [16702, 16703, 16704])) := by
  refine ⟨⟨by decide, by decide, by decide⟩, ?_⟩
  exact port_allocation_contiguous soloEnv 15702 3
    (fun i => "log" ++ toString (15702 + i)) (fun i => 1000 + (15702 + i))
    (by decide) (by decide) (by decide)
    (fun i _ => rfl) (fun i _ => rfl)

/-- C5: an instance count above `u16::MAX` fails with the explicit
too-large error (for every base port, before any port arithmetic); a port
range exceeding the ceiling fails with the range-exceeded error citing the
computed highest port and the ceiling; either validation failure makes the
launch fail with no process spawned (empty OS trace). -/
theorem port_validation_errors (base_port instance_count : Nat)
    (env : LaunchEnv) (config : LaunchConfig) :
    (instance_count > 65535 →
      validate_port_range base_port instance_count =
        .error (.ToolCallFailed (instance_count_error_message instance_count))) ∧
    (instance_count ≤ 65535 →
      satAdd16 base_port (satSub16 instance_count 1) > MAX_VALID_PORT →
      validate_port_range base_port instance_count =
        .error (.ToolCallFailed (port_range_error_message base_port
          (satAdd16 base_port (satSub16 instance_count 1))))) ∧
    (∀ e, validate_port_range config.port config.instance_count = .error e →
      (launch_target env config).1.isErr = true ∧ (launch_target env config).2 = []) := by
  refine ⟨?_, ?_, ?_⟩
  · intro h
    unfold validate_port_range
    simp [h, Error.tool_call_failed]
  · intro h1 h2
    have h1' : ¬ instance_count > 65535 := by omega
    unfold validate_port_range
    simp [h1', h2, Error.tool_call_failed]
  · intro e he
    unfold launch_target
    cases h1 : find_and_validate_target config env.catalog with
    | error e1 => exact ⟨rfl, rfl⟩
    | ok target =>
      dsimp only
      cases h2 : ensure_built env config target with
      | error e2 => exact ⟨rfl, rfl⟩
      | ok build_state =>
        dsimp only
        rw [he]
        exact ⟨rfl, rfl⟩

/-- Witness for C5: instance count 70000 hits the too-large error; 600
instances from base port 65000 hit the range-exceeded error (highest port
saturating to 65535, above the ceiling 65534), and the launch fails with
an empty spawn trace. -/
theorem port_validation_errors_witness :
    ((70000 : Nat) > 65535 ∧
      validate_port_range 1 70000 =
        .error (.ToolCallFailed (instance_count_error_message 70000))) ∧
    ((600 : Nat) ≤ 65535 ∧ satAdd16 65000 (satSub16 600 1) > MAX_VALID_PORT ∧
      validate_port_range 65000 600 =
        .error (.ToolCallFailed (port_range_error_message 65000
          (satAdd16 65000 (satSub16 600 1))))) ∧
    (validate_port_range 65000 600 =
        .error (.ToolCallFailed (port_range_error_message 65000 65535)) ∧
      (launch_target soloEnv
        { baseConfig with port := 65000, instance_count := 600 }).1.isErr = true ∧
      (launch_target soloEnv
        { baseConfig with port := 65000, instance_count := 600 }).2 = []) := by
  refine ⟨⟨by decide, ?_⟩, ⟨by decide, by decide, ?_⟩, ⟨rfl, ?_⟩⟩
  · exact (port_validation_errors 1 70000 soloEnv baseConfig).1 (by decide)
  · exact (port_validation_errors 65000 600 soloEnv baseConfig).2.1 (by decide) (by decide)
  · exact (port_validation_errors 65000 600 soloEnv
      { baseConfig with port := 65000, instance_count := 600 }).2.2
      (.ToolCallFailed (port_range_error_message 65000 65535)) rfl

/-- C10: the summary construction of `build_launch_result` is defined (in
bounds) for every non-empty port list; on the empty port list (reachable
because `validate_port_range` accepts `instance_count = 0` through its
saturating subtraction) the unconditional index panics. -/
theorem aggregation_requires_nonempty_ports :
    (∀ ports : List Nat, ports ≠ [] → (port_range_string ports).isSome = true) ∧
    (∀ (env : LaunchEnv) (pids : List Nat) (logs : List String) (ports : List Nat)
        (config : LaunchConfig) (target : BevyTarget), ports ≠ [] →
      (build_launch_result env pids logs ports config target).isSome = true) ∧
    port_range_string [] = none ∧
    (∀ (env : LaunchEnv) (pids : List Nat) (logs : List String)
        (config : LaunchConfig) (target : BevyTarget),
      build_launch_result env pids logs [] config target = none) ∧
    (∀ base_port, base_port ≤ MAX_VALID_PORT → validate_port_range base_port 0 = .ok ()) := by
  have hnonempty : ∀ ports : List Nat, ports ≠ [] →
      (port_range_string ports).isSome = true := by
    intro ports hne
    cases ports with
    | nil => exact absurd rfl hne
    | cons a tl =>
      unfold port_range_string
      by_cases hl : ((a :: tl).length == 1) = true
      · rw [if_pos hl]
        rfl
      · rw [if_neg (by simpa using hl)]
        cases hgl : (a :: tl).getLast? with
        | none => simp at hgl
        | some b => rfl
  refine ⟨hnonempty, ?_, rfl, ?_, ?_⟩
  · intro env pids logs ports config target hne
    simp only [build_launch_result]
    cases hpr : port_range_string ports with
    | none =>
      have := hnonempty ports hne
      rw [hpr] at this
      cases this
    | some pr => rfl
  · intro env pids logs config target
    simp only [build_launch_result]
    rfl
  · intro base_port h
    rw [validate_port_range_ok_iff]
    refine ⟨by omega, ?_⟩
    unfold satAdd16 satSub16 MAX_VALID_PORT
    unfold MAX_VALID_PORT at h
    omega

/-- Witness for C10: the two-port list is in bounds; validation accepts a
zero instance count at base port 15702, where aggregation would panic. -/
theorem aggregation_requires_nonempty_ports_witness :
    ([15702, 15703] ≠ ([] : List Nat) ∧ (15702 : Nat) ≤ MAX_VALID_PORT) ∧
    (port_range_string [15702, 15703]).isSome = true ∧
    validate_port_range 15702 0 = .ok () := by
  refine ⟨⟨by decide, by decide⟩, ?_, ?_⟩
  · exact aggregation_requires_nonempty_ports.1 [15702, 15703] (by decide)
  · exact aggregation_requires_nonempty_ports.2.2.2.2 15702 (by decide)

/-- C9: when every instance before `i` spawns successfully and instance
`i` fails (in preparation or spawn), the launch loop returns that error
immediately: no later instance is spawned, and the OS trace holds exactly
the pids of the instances spawned before the failure (none terminated or
rolled back). -/
theorem launch_loop_aborts_without_rollback (env : LaunchEnv)
    (base_port instance_count i : Nat) (e : Error)
    (L : Nat → String) (P : Nat → Nat)
    (hi : i < instance_count)
    (hok : ∀ j, j < i → env.prepare (instancePort base_port j) = .ok (L j) ∧
      env.spawn (instancePort base_port j) = .ok (P j))
    (hfail : env.prepare (instancePort base_port i) = .error e ∨
      ∃ lf, env.prepare (instancePort base_port i) = .ok lf ∧
        env.spawn (instancePort base_port i) = .error e) :
    launch_instances env instance_count base_port =
      (.error e, (List.range i).map P) := by
  have hsplit : List.range i ++ List.range' i (instance_count - i) =
      List.range instance_count := by
    have happ := List.range'_append 0 i (instance_count - i) 1
    have harith : instance_count - i + i = instance_count := by omega
    rw [List.range_eq_range', List.range_eq_range']
    simpa [harith] using happ
  have hstep : List.range' i (instance_count - i) =
      i :: List.range' (i + 1) (instance_count - i - 1) := by
    obtain ⟨k, hk⟩ : ∃ k, instance_count - i = k + 1 := ⟨instance_count - i - 1, by omega⟩
    have hk1 : k = instance_count - i - 1 := by omega
    rw [hk, List.range'_succ, hk1]
    simp
  have hdecomp : List.range instance_count =
      List.range i ++ i :: List.range' (i + 1) (instance_count - i - 1) := by
    rw [← hsplit, hstep]
  have hpre : ∀ j ∈ List.range i,
      env.prepare (instancePort base_port j) = .ok (L j) ∧
      env.spawn (instancePort base_port j) = .ok (P j) :=
    fun j hj => hok j (List.mem_range.mp hj)
  have hrun := launch_instances_go_fail env base_port L P e (List.range i) hpre
    i (List.range' (i + 1) (instance_count - i - 1)) [] [] [] [] hfail
  unfold launch_instances
  rw [hdecomp, hrun]
  simp

/-- Witness for C9: spawning the second of three instances fails; the
loop aborts with that error and the trace keeps exactly the pid of the
first instance. -/
theorem launch_loop_aborts_without_rollback_witness :
    ((1 : Nat) < 3 ∧
      failSpawnEnv.prepare (instancePort 15702 1) = .ok "log15703" ∧
      failSpawnEnv.spawn (instancePort 15702 1) =
        .error (.ProcessManagement "spawn failed")) ∧
    launch_instances failSpawnEnv 3 15702 =
      (.error (.ProcessManagement "spawn failed"), [16702]) := by
  refine ⟨⟨by decide, rfl, rfl⟩, ?_⟩
  exact launch_loop_aborts_without_rollback failSpawnEnv 15702 3 1
    (.ProcessManagement "spawn failed")
    (fun j => "log" ++ toString (15702 + j)) (fun j => 1000 + (15702 + j))
    (by decide)
    (fun j hj => by
      have hj0 : j = 0 := by omega
      subst hj0
      exact ⟨rfl, rfl⟩)
    (Or.inr ⟨"log15703", rfl, rfl⟩)

/-- C3: the first build-output line naming the requested target decides
the build state — freshness flag `true` gives `Fresh`, `false` or absent
gives `Rebuilt`; when no line names the target the state is `NotFound`;
and the classification (including `NotFound`) never changes the outcome of
a launch whose build invocation succeeded (non-fatal). -/
theorem build_state_classification :
    (∀ (pre : List (Option Json)) (line : Option Json) (rest : List (Option Json))
        (target_name : String),
      (∀ l ∈ pre, lineNamesTarget l target_name = false) →
      lineNamesTarget line target_name = true →
      parse_build_output (pre ++ line :: rest) target_name =
        (match lineFreshFlag line with
          | some true => .Fresh
          | some false => .Rebuilt
          | none => .Rebuilt)) ∧
    (∀ (lines : List (Option Json)) (target_name : String),
      (∀ l ∈ lines, lineNamesTarget l target_name = false) →
      parse_build_output lines target_name = .NotFound) ∧
    (∀ (env : LaunchEnv) (config : LaunchConfig) (lines lines' : List (Option Json)),
      launch_target { env with build_result := .ok lines } config =
        launch_target { env with build_result := .ok lines' } config) := by
  refine ⟨?_, ?_, ?_⟩
  · intro pre line rest target_name hpre hline
    induction pre with
    | nil =>
      simp only [List.nil_append, parse_build_output, hline, if_true]
    | cons l pre ih =>
      have hl : lineNamesTarget l target_name = false := hpre l (by simp)
      have hpre' : ∀ x ∈ pre, lineNamesTarget x target_name = false :=
        fun x hx => hpre x (by simp [hx])
      simp only [List.cons_append, parse_build_output, hl, Bool.false_eq_true,
        if_false]
      exact ih hpre'
  · intro lines target_name hall
    induction lines with
    | nil => rfl
    | cons l rest ih =>
      have hl : lineNamesTarget l target_name = false := hall l (by simp)
      have hrest : ∀ x ∈ rest, lineNamesTarget x target_name = false :=
        fun x hx => hall x (by simp [hx])
      simp only [parse_build_output, hl, Bool.false_eq_true, if_false]
      exact ih hrest
  · intro env config lines lines'
    have hli : ∀ n b, launch_instances { env with build_result := .ok lines } n b =
        launch_instances { env with build_result := .ok lines' } n b := by
      intro n b
      unfold launch_instances
      exact launch_instances_go_prepare_spawn { env with build_result := .ok lines }
        { env with build_result := .ok lines' } rfl rfl b (List.range n) [] [] [] []
    have hbl : ∀ (all_pids : List Nat) (all_log_files : List String)
        (all_ports : List Nat) (target : BevyTarget),
        build_launch_result { env with build_result := .ok lines }
          all_pids all_log_files all_ports config target =
        build_launch_result { env with build_result := .ok lines' }
          all_pids all_log_files all_ports config target := by
      intro all_pids all_log_files all_ports target
      exact build_launch_result_ambient { env with build_result := .ok lines }
        { env with build_result := .ok lines' } rfl rfl rfl
        all_pids all_log_files all_ports config target
    unfold launch_target ensure_built run_cargo_build
    dsimp only
    cases h1 : find_and_validate_target config env.catalog with
    | error e => rfl
    | ok target =>
      dsimp only
      cases h2 : validate_manifest_directory target.manifest_parent with
      | error e => rfl
      | ok dir =>
        dsimp only
        simp only [hli, hbl]

/-- Witness for C3: a single line naming `game` with freshness `true`
classifies as `Fresh`; a stream not naming `game` classifies as
`NotFound`; and a `NotFound` build output launches identically to a
`Fresh` one. -/
theorem build_state_classification_witness :
    lineNamesTarget (some (.obj [("target", .obj [("name", .str "game")]),
      ("fresh", .bool true)])) "game" = true ∧
    parse_build_output [some (.obj [("target", .obj [("name", .str "game")]),
      ("fresh", .bool true)])] "game" = .Fresh ∧
    parse_build_output [none, some (.obj [("target",
      .obj [("name", .str "other")])])] "game" = .NotFound ∧
    launch_target { soloEnv with build_result := .ok [] } baseConfig =
      launch_target { soloEnv with build_result := .ok [some (.obj [("target",
        .obj [("name", .str "game")]), ("fresh", .bool true)])] } baseConfig := by
  refine ⟨rfl, ?_, ?_, ?_⟩
  · exact build_state_classification.1 [] (some (.obj [("target",
      .obj [("name", .str "game")]), ("fresh", .bool true)])) [] "game"
      (fun l hl => absurd hl (List.not_mem_nil l)) rfl
  · exact build_state_classification.2.1 [none, some (.obj [("target",
      .obj [("name", .str "other")])])] "game"
      (fun l hl => by
        simp only [List.mem_cons, List.not_mem_nil, or_false] at hl
        rcases hl with rfl | rfl <;> rfl)
  · exact build_state_classification.2.2 soloEnv baseConfig []
      [some (.obj [("target", .obj [("name", .str "game")]), ("fresh", .bool true)])]

/-- C4: resolution failures are classified by candidate-set size — zero
candidates give `NoTargetsFoundError`; one candidate whose hint-aware
match fails gives `TargetNotFoundAtSpecifiedPath` listing that candidate's
path; two or more candidates whose hint-aware match fails give
`PathDisambiguationError` listing all candidate paths. -/
theorem resolution_error_taxonomy (config : LaunchConfig)
    (catalog : List BevyTarget) :
    (find_all_targets_by_name config.target_name config.target_type catalog = [] →
      find_and_validate_target config catalog =
        .error (.Structured (.NoTargetsFoundError config.target_name
          config.target_type.display))) ∧
    (∀ (t : BevyTarget) (e : String),
      find_all_targets_by_name config.target_name config.target_type catalog = [t] →
      find_required_target_with_path config.path [t] = .error e →
      find_and_validate_target config catalog =
        .error (.Structured (.TargetNotFoundAtSpecifiedPath config.target_name
          config.target_type.display config.path [t.relative_path]))) ∧
    (∀ e : String,
      2 ≤ (find_all_targets_by_name config.target_name config.target_type catalog).length →
      find_required_target_with_path config.path
        (find_all_targets_by_name config.target_name config.target_type catalog) =
          .error e →
      find_and_validate_target config catalog =
        .error (.Structured (.PathDisambiguationError
          ((find_all_targets_by_name config.target_name config.target_type catalog).map
            (fun t => t.relative_path))
          config.target_name config.target_type.display))) :=
  ⟨fun h => find_and_validate_target_empty config catalog h,
    fun t e h1 h2 => find_and_validate_target_single config catalog t e h1 h2,
    fun e h1 h2 => find_and_validate_target_dup config catalog e h1 h2⟩

/-- Witness for C4: an unknown name gives `NoTargetsFoundError`; a wrong
hint against the single `game` target gives `TargetNotFoundAtSpecifiedPath`
with path `a/game`; no hint against two `game` targets gives
`PathDisambiguationError` with both paths. -/
theorem resolution_error_taxonomy_witness :
    find_and_validate_target { baseConfig with target_name := "nope" } dupEnv.catalog =
      .error (.Structured (.NoTargetsFoundError "nope" "app")) ∧
    find_and_validate_target { baseConfig with path := some "zzz" } soloEnv.catalog =
      .error (.Structured (.TargetNotFoundAtSpecifiedPath "game" "app"
        (some "zzz") ["a/game"])) ∧
    find_and_validate_target baseConfig dupEnv.catalog =
      .error (.Structured (.PathDisambiguationError ["a/game", "b/game"]
        "game" "app")) := by
  refine ⟨?_, ?_, ?_⟩
  · exact (resolution_error_taxonomy { baseConfig with target_name := "nope" }
      dupEnv.catalog).1 rfl
  · exact (resolution_error_taxonomy { baseConfig with path := some "zzz" }
      soloEnv.catalog).2.1 gameTargetA "target not found at specified path" rfl rfl
  · exact (resolution_error_taxonomy baseConfig dupEnv.catalog).2.2
      "target resolution was not unique" (by decide) rfl

/-- C7: `handle_target_discovery_error` preserves structured errors
verbatim, re-wraps every non-structured error into a generic tool failure
with diagnostic context attached, and a structured resolution error
surfaces unchanged from `launch_target`. -/
theorem structured_errors_preserved :
    (∀ result : StructuredError,
      handle_target_discovery_error (.Structured result) = .Structured result) ∧
    (∀ e : Error, e.isStructured = false →
      handle_target_discovery_error e =
        Error.tool_call_failed_with_details e.display
          (.obj [("error", .str e.display), ("error_chain", .str e.display)])) ∧
    (∀ (env : LaunchEnv) (config : LaunchConfig) (result : StructuredError),
      find_and_validate_target config env.catalog = .error (.Structured result) →
      launch_target env config = (.Err (.Structured result), [])) := by
  refine ⟨fun result => rfl, ?_, ?_⟩
  · intro e he
    cases e with
    | Structured result => simp [Error.isStructured] at he
    | ProcessManagement msg => rfl
    | FileOrPathNotFound msg => rfl
    | ToolCallFailed msg => rfl
    | ToolCallFailedWithDetails msg details => rfl
  · intro env config result h
    unfold launch_target
    rw [h]
    rfl

/-- Witness for C7: the disambiguation error of the two-target catalog is
returned unchanged by the whole launch call. -/
theorem structured_errors_preserved_witness :
    find_and_validate_target baseConfig dupEnv.catalog =
      .error (.Structured (.PathDisambiguationError ["a/game", "b/game"]
        "game" "app")) ∧
    launch_target dupEnv baseConfig =
      (.Err (.Structured (.PathDisambiguationError ["a/game", "b/game"]
        "game" "app")), []) := by
  refine ⟨rfl, ?_⟩
  exact structured_errors_preserved.2.2 dupEnv baseConfig
    (.PathDisambiguationError ["a/game", "b/game"] "game" "app") rfl

/-- C6: a successful launch call reports exactly one `LaunchedInstance`
per requested instance, and exactly that many processes were spawned; a
per-instance failure never yields a success, so no partial launch is
reported as one. -/
theorem instances_length_matches_request (env : LaunchEnv)
    (config : LaunchConfig) (r : LaunchResult) (os : List Nat)
    (h : launch_target env config = (.Ok r, os)) :
    r.instances.length = config.instance_count ∧
    os.length = config.instance_count := by
  obtain ⟨target, pids, logs, ports, h1, h2, h3, h4⟩ :=
    launch_target_Ok_inv env config r os h
  unfold launch_instances at h3
  obtain ⟨hq, hl, d, hp, hos, hlen⟩ :=
    launch_instances_go_ok_inv env config.port (List.range config.instance_count)
      [] [] [] [] pids logs ports os h3
  have hlen' : d.length = config.instance_count := by simpa using hlen
  have hpids_len : pids.length = config.instance_count := by
    rw [hp]
    simpa using hlen'
  have hlogs_len : logs.length = config.instance_count := by simpa using hl
  have hports_len : ports.length = config.instance_count := by
    rw [hq]
    simp
  obtain ⟨hdup, hinst, _⟩ :=
    build_launch_result_some_inv env pids logs ports config target r h4
  constructor
  · rw [hinst]
    simp [hpids_len, hlogs_len, hports_len]
  · rw [hos]
    simpa using hlen'

/-- Witness for C6: launching three instances yields exactly three
reported instances and three spawned pids. -/
theorem instances_length_matches_request_witness :
    launch_target soloEnv soloThreeConfig =
      (.Ok soloThreeResult, [16702, 16703, 16704]) ∧
    (soloThreeResult.instances.length = soloThreeConfig.instance_count ∧
      [16702, 16703, 16704].length = soloThreeConfig.instance_count) :=
  ⟨rfl, instances_length_matches_request soloEnv soloThreeConfig soloThreeResult
    [16702, 16703, 16704] rfl⟩

/-- C8: a successful launch reports instances on exactly the contiguous
ports starting at the base port, and its summary message states the
instance count and the port range — the single base port for one
instance, `"base-highest"` otherwise. -/
theorem summary_message_ports (env : LaunchEnv) (config : LaunchConfig)
    (r : LaunchResult) (os : List Nat)
    (h : launch_target env config = (.Ok r, os)) :
    r.instances.map (fun inst => inst.port) =
      List.range' config.port config.instance_count ∧
    r.message_template = some (launch_message config.instance_count
      config.target_name
      (if config.instance_count = 1 then toString config.port
        else toString config.port ++ "-" ++
          toString (config.port + (config.instance_count - 1)))) := by
  obtain ⟨target, pids, logs, ports, h1, h2, h3, h4⟩ :=
    launch_target_Ok_inv env config r os h
  unfold launch_instances at h3
  obtain ⟨hq, hl, d, hp, hos, hlen⟩ :=
    launch_instances_go_ok_inv env config.port (List.range config.instance_count)
      [] [] [] [] pids logs ports os h3
  obtain ⟨hdup, hinst, pr, hpr, hmsg⟩ :=
    build_launch_result_some_inv env pids logs ports config target r h4
  have hvp := (validate_port_range_ok_iff config.port config.instance_count).mp h2
  have hpos : 0 < config.instance_count := by
    by_contra h0
    have hc0 : config.instance_count = 0 := by omega
    rw [hc0] at hq
    simp at hq
    rw [hq] at hpr
    have hnone : port_range_string ([] : List Nat) = none := rfl
    rw [hnone] at hpr
    cases hpr
  have hmap : (List.range config.instance_count).map (instancePort config.port) =
      List.range' config.port config.instance_count := by
    rw [List.range'_eq_map_range]
    exact List.map_congr_left (fun i hi =>
      instancePort_eq_add config.port config.instance_count i hvp.1 hvp.2
        (List.mem_range.mp hi))
  have hports_eq : ports = List.range' config.port config.instance_count := by
    rw [hq, hmap]
    simp
  have hlen' : d.length = config.instance_count := by simpa using hlen
  have hpids_len : pids.length = config.instance_count := by
    rw [hp]
    simpa using hlen'
  have hlogs_len : logs.length = config.instance_count := by simpa using hl
  have hports_len : ports.length = config.instance_count := by
    rw [hports_eq]
    simp
  constructor
  · rw [hinst, List.map_map]
    have hsnd : ((pids.zip logs).zip ports).map
        ((fun inst => inst.port) ∘ (fun x =>
          ({ pid := x.fst.fst, log_file := x.fst.snd, port := x.snd } :
            LaunchedInstance))) =
        ((pids.zip logs).zip ports).map Prod.snd := rfl
    rw [hsnd, List.map_snd_zip]
    · exact hports_eq
    · rw [List.length_zip, hpids_len, hlogs_len, hports_len]
      simp
  · have hpr' : port_range_string ports =
        some (if config.instance_count = 1 then toString config.port
          else toString config.port ++ "-" ++
            toString (config.port + (config.instance_count - 1))) := by
      rw [hports_eq]
      exact port_range_string_range' config.port config.instance_count hpos
    rw [hpr] at hpr'
    obtain hpr2 := Option.some.inj hpr'
    rw [hmsg, hports_len, hpr2]

/-- Witness for C8: launching 3 instances at base port 15702 yields
instances on ports 15702, 15703, 15704 and a summary message containing
`"15702-15704"`. -/
theorem summary_message_ports_witness :
    launch_target soloEnv soloThreeConfig =
      (.Ok soloThreeResult, [16702, 16703, 16704]) ∧
    soloThreeResult.instances.map (fun inst => inst.port) =
      [15702, 15703, 15704] ∧
    soloThreeResult.message_template =
      some ("Successfully launched 3 instance(s) of game on ports " ++
        "15702-15704") := by
  refine ⟨rfl, ?_, ?_⟩
  · exact (summary_message_ports soloEnv soloThreeConfig soloThreeResult
      [16702, 16703, 16704] rfl).1
  · exact (summary_message_ports soloEnv soloThreeConfig soloThreeResult
      [16702, 16703, 16704] rfl).2

/-- C1 (counterexample): a launch that succeeds after disambiguating
among two same-named matching targets (path hint `a/game`) returns
`duplicate_paths = none`, although more than one target matched the
requested name and kind — refuting that `duplicate_paths` is populated
whenever more than one target matched. -/
theorem duplicate_paths_success_counterexample :
    (find_all_targets_by_name "game" .App dupEnv.catalog).length = 2 ∧
    launch_target dupEnv { baseConfig with path := some "a/game" } =
      (.Ok dupHintResult, [16702]) ∧
    dupHintResult.duplicate_paths = none :=
  ⟨rfl, rfl, rfl⟩

/-- C1 (amended): a successful launch always carries
`duplicate_paths = none`; the candidate relative paths are instead carried
by the structured `PathDisambiguationError` when more than one target
matches and hint-aware resolution fails. -/
theorem duplicate_paths_never_on_success (env : LaunchEnv)
    (config : LaunchConfig) (r : LaunchResult) (os : List Nat) :
    (launch_target env config = (.Ok r, os) → r.duplicate_paths = none) ∧
    (∀ e : String,
      2 ≤ (find_all_targets_by_name config.target_name config.target_type
        env.catalog).length →
      find_required_target_with_path config.path
        (find_all_targets_by_name config.target_name config.target_type
          env.catalog) = .error e →
      find_and_validate_target config env.catalog =
        .error (.Structured (.PathDisambiguationError
          ((find_all_targets_by_name config.target_name config.target_type
            env.catalog).map (fun t => t.relative_path))
          config.target_name config.target_type.display))) := by
  constructor
  · intro h
    obtain ⟨target, pids, logs, ports, _, _, _, h4⟩ :=
      launch_target_Ok_inv env config r os h
    exact (build_launch_result_some_inv env pids logs ports config target r h4).1
  · intro e h1 h2
    exact find_and_validate_target_dup config env.catalog e h1 h2

/-- Witness for C1 (amended): the successful disambiguated launch of the
counterexample scenario indeed carries `duplicate_paths = none`. -/
theorem duplicate_paths_never_on_success_witness :
    launch_target dupEnv { baseConfig with path := some "a/game" } =
      (.Ok dupHintResult, [16702]) ∧
    dupHintResult.duplicate_paths = none := by
  refine ⟨rfl, ?_⟩
  exact (duplicate_paths_never_on_success dupEnv
    { baseConfig with path := some "a/game" } dupHintResult [16702]).1 rfl

end BevyBrp
